import Mathlib

/-!
Shallow embedding of the Biotech nanoDSF analysis platform.

The repository ships the React frontend (components, pages, API client);
the backend analysis/simulation engine is not part of the source tree, so
the core pipeline (validator, smoother, derivative analyzer, quality
assessor, anomaly detector, simulation engine) is modelled from the
specification, while every frontend behavior (chart-row construction,
chart series keys, quality badge guard, transition-table arithmetic,
simulation-form preview) is translated directly from the JSX sources.

Numbers are embedded as rationals; JavaScript objects whose field names
matter are embedded as a small JSON-like value type with string-keyed
lookup, so that claims about exact field names are expressible.
-/

/-- A JSON-like value, embedding the JavaScript objects exchanged between
the backend and the frontend. `jnull` stands for both `null` and
`undefined`. -/
inductive JVal where
  | num (q : ℚ)
  | str (s : String)
  | jbool (b : Bool)
  | jnull
  | arr (xs : List JVal)
  | obj (fields : List (String × JVal))

/-- Field lookup on an object's field list (first binding wins, as in a
JavaScript object literal). -/
def jlookup (fields : List (String × JVal)) (k : String) : Option JVal :=
  (fields.find? (fun p => p.1 == k)).map Prod.snd

/-- `v.get? k` embeds the JavaScript property access `v[k]` / `v.k`:
`some` the bound value on an object that carries the field, `none`
(i.e. `undefined`) otherwise. -/
def JVal.get? : JVal → String → Option JVal
  | JVal.obj fs, k => jlookup fs k
  | _, _ => none

/-- The field names of an object, in declaration order. -/
def JVal.keys : JVal → List String
  | JVal.obj fs => fs.map Prod.fst
  | _ => []

/-- Embeds the JavaScript array access `a[i]` on a possibly-undefined
array value: out-of-range and non-array accesses yield `undefined`. -/
def arrGet (v : Option JVal) (i : ℕ) : JVal :=
  match v with
  | some (JVal.arr xs) => xs.getD i JVal.jnull
  | _ => JVal.jnull

/-! ### ResultDetailsPage chart rows and CurveChart series keys

From `src/frontend/src/pages/ResultDetailsPage.jsx` (chartData) and
`src/frontend/src/components/CurveChart.jsx` (the `dataKey` props of the
two ratio `Line`s and the derivative series). -/

/-- One chart row as built by `ResultDetailsPage`:
`{ temperature: temp, raw_ratio: ..., smoothed_ratio: ..., derivative: ... }`. -/
def chartRow (temp rawv smv dv : JVal) : JVal :=
  JVal.obj [("temperature", temp), ("raw_ratio", rawv),
            ("smoothed_ratio", smv), ("derivative", dv)]

/-- `ResultDetailsPage`'s chart-data preparation:
`result.data ? result.data.raw_temperature.map((temp, idx) => ({...})) : []`.
A missing or null `result.data` is falsy and yields `[]`; a `result.data`
without a `raw_temperature` array would throw in JavaScript, embedded
here as `none`. -/
def chartDataJs (result : JVal) : Option (List JVal) :=
  match result.get? "data" with
  | none => some []
  | some JVal.jnull => some []
  | some dv =>
    match dv.get? "raw_temperature" with
    | some (JVal.arr ts) =>
        some ((List.range ts.length).map (fun idx =>
          chartRow (ts.getD idx JVal.jnull)
            (arrGet (dv.get? "raw_ratio") idx)
            (arrGet (dv.get? "smoothed_ratio") idx)
            (arrGet (dv.get? "derivative_values") idx)))
    | _ => none

/-- `dataKey` of the Raw Ratio line in `CurveChart.jsx`. -/
def curveChartRawKey : String := "rawRatio"

/-- `dataKey` of the Smoothed Ratio line in `CurveChart.jsx`. -/
def curveChartSmoothedKey : String := "smoothedRatio"

/-- `dataKey` of the derivative area/line in `CurveChart.jsx`. -/
def curveChartDerivativeKey : String := "derivative"

/-! ### QualityBadge (frontend, `src/unnamed/part_000`) -/

/-- JavaScript falsiness of a string-or-undefined value (`!quality`):
`undefined`, `null` and the empty string are falsy. -/
def jsFalsyStr : Option String → Bool
  | none => true
  | some s => s.isEmpty

/-- JavaScript falsiness of a number-or-undefined value (`!score`):
`undefined`, `null` and `0` are falsy. -/
def jsFalsyNum : Option ℚ → Bool
  | none => true
  | some q => q == 0

/-- The display label `qualityConfig[quality].label` of `QualityBadge`,
`none` for a quality string with no entry in the config table. -/
def qualityConfigLabel (q : String) : Option String :=
  if q = "excellent" then some "Excellent"
  else if q = "good" then some "Good"
  else if q = "acceptable" then some "Acceptable"
  else if q = "poor" then some "Poor"
  else if q = "invalid" then some "Invalid"
  else none

/-- The quality strings that `QualityBadge`'s `qualityConfig` table
supports (its keys, in order). -/
def qualityBadgeSupported : List String :=
  ["excellent", "good", "acceptable", "poor", "invalid"]

/-- `QualityBadge({quality, score})`: `if (!quality || !score) return null`,
otherwise render the badge for `qualityConfig[quality] || qualityConfig.acceptable`
with the score. The rendered badge is embedded as its (label, score) pair. -/
def qualityBadge (quality : Option String) (score : Option ℚ) :
    Option (String × ℚ) :=
  if jsFalsyStr quality || jsFalsyNum score then none
  else some ((qualityConfigLabel (quality.getD "")).getD "Acceptable",
             score.getD 0)

/-! ### TransitionTable (frontend, `src/unnamed/part_004`) -/

/-- A row of the transitions array as consumed by `TransitionTable`;
fields that a given transition object may lack are `Option`s
(`none` embeds a missing property, i.e. `undefined`). -/
structure TransitionRow where
  onset : Option ℚ
  peak : Option ℚ
  offset : Option ℚ
  slope : Option ℚ
  peakHeight : Option ℚ
  maxSlope : Option ℚ
  deriving DecidableEq

/-- `const width = transition.offset - transition.onset` — arithmetic on a
missing operand is `NaN`, embedded as `none`. -/
def rowWidth (t : TransitionRow) : Option ℚ :=
  match t.offset, t.onset with
  | some o, some n => some (o - n)
  | _, _ => none

/-- The divisor `(width || 1)` of the cooperativity expression: a zero or
`NaN` width is falsy and is replaced by `1`. -/
def widthOr1 (t : TransitionRow) : ℚ :=
  match rowWidth t with
  | some w => if w = 0 then 1 else w
  | none => 1

/-- `const cooperativity = transition.slope / (width || 1)` — a missing
`slope` makes the quotient `NaN` (`none`). -/
def cooperativity (t : TransitionRow) : Option ℚ :=
  t.slope.map (fun s => s / widthOr1 t)

/-- Follows the claim's words (and the table legend), for comparison with
the implementation: the transition's peak height divided by the
transition width `offset - onset`. -/
def cooperativityClaimed (t : TransitionRow) : Option ℚ :=
  match t.peakHeight, rowWidth t with
  | some h, some w => some (h / w)
  | _, _ => none

/-- The `Primary Unfolding` transition supplied to `TransitionTable` by the
analysis results page (its default analysis data): onset 53.2, peak 60.45,
offset 67.8, maxSlope 0.0234, peakHeight 0.35 — and no `slope` field. -/
def primaryUnfolding : TransitionRow :=
  { onset := some (266/5), peak := some (1209/20), offset := some (339/5),
    slope := none, peakHeight := some (7/20), maxSlope := some (117/5000) }

/-- A transition row carrying all numeric fields, including a `slope`
distinct from its `peakHeight` (slope as the analyzer's max slope). -/
def slopeRow : TransitionRow :=
  { onset := some (266/5), peak := some (1209/20), offset := some (339/5),
    slope := some (117/5000), peakHeight := some (7/20),
    maxSlope := some (117/5000) }

/-- Onset threshold fraction as documented by the `TransitionTable`
legend: "Onset: Temperature where transition begins (10% of peak)". -/
def onsetThresholdFraction : ℚ := 1/10

/-- Offset threshold fraction as documented by the `TransitionTable`
legend: "Offset: Temperature where transition completes (90% of peak)". -/
def offsetThresholdFraction : ℚ := 9/10

/-! ### Analysis core (backend), modelled from the spec

The backend engine is not part of the source tree; the following
definitions embed it from the specification (sections 3, 4 and 6). -/

/-- A raw curve: ordered (temperature, F350/F330 ratio) pairs. -/
def Curve : Type := List (ℚ × ℚ)

/-- Temperature axis of a curve. -/
def temps (c : Curve) : List ℚ := c.map Prod.fst

/-- Ratio values of a curve. -/
def ratios (c : Curve) : List ℚ := c.map Prod.snd

/-- Strict increase of a list of rationals, as a boolean check. -/
def strictIncr : List ℚ → Bool
  | a :: b :: t => decide (a < b) && strictIncr (b :: t)
  | _ => true

/-- Modelled from the spec: the CurveValidator's structural check — at
least 20 points and a strictly increasing temperature axis. -/
def validCurve (c : Curve) : Bool :=
  decide (20 ≤ c.length) && strictIncr (temps c)

/-- Modelled from the spec: the Smoother's window size — an odd moving
window of about 7% of the point count (within the spec's 5–9% band),
at least 5. -/
def windowSize (n : ℕ) : ℕ :=
  let w := max 5 (7 * n / 100)
  if w % 2 = 0 then w + 1 else w

/-- Half-width of the smoothing window. -/
def halfWindow (n : ℕ) : ℕ := (windowSize n - 1) / 2

/-- Modelled from the spec: one smoothed sample — the mean of the window
centered at `i`, with the window shrunk symmetrically near either edge so
that no point is dropped. -/
def smoothAt (rs : List ℚ) (i : ℕ) : ℚ :=
  let r := min (halfWindow rs.length) (min i (rs.length - 1 - i))
  let seg := (rs.drop (i - r)).take (2 * r + 1)
  seg.sum / (seg.length : ℚ)

/-- Modelled from the spec: the Smoother — same length as the input,
moving-window mean with shrinking edge windows. -/
def smooth (rs : List ℚ) : List ℚ :=
  (List.range rs.length).map (smoothAt rs)

/-- The smoothed curve: the unchanged temperature axis paired with the
smoothed ratios. -/
def smoothCurve (c : Curve) : Curve :=
  (temps c).zip (smooth (ratios c))

/-- Modelled from the spec: one first-derivative sample — centered finite
differences, forward at the first point and backward at the last. -/
def derivAt (c : Curve) (i : ℕ) : ℚ :=
  let ts := temps c
  let rs := ratios c
  let n := c.length
  if n < 2 then 0
  else if i = 0 then
    (rs.getD 1 0 - rs.getD 0 0) / (ts.getD 1 0 - ts.getD 0 0)
  else if i = n - 1 then
    (rs.getD i 0 - rs.getD (i - 1) 0) / (ts.getD i 0 - ts.getD (i - 1) 0)
  else
    (rs.getD (i + 1) 0 - rs.getD (i - 1) 0) /
      (ts.getD (i + 1) 0 - ts.getD (i - 1) 0)

/-- Modelled from the spec: the DerivativeAnalyzer's first-derivative
profile, one value per input point. -/
def derivative (c : Curve) : List ℚ :=
  (List.range c.length).map (derivAt c)

/-- Index of the maximal derivative value (first maximum wins ties). -/
def peakIdx (d : List ℚ) : ℕ :=
  (List.range d.length).foldl
    (fun b i => if d.getD b 0 < d.getD i 0 then i else b) 0

/-- Backward scan: starting at index `i` and stepping down, the first
index whose sample satisfies `f`. -/
def scanBackAux (f : ℕ → Bool) : ℕ → Option ℕ
  | 0 => if f 0 then some 0 else none
  | i + 1 => if f (i + 1) then some (i + 1) else scanBackAux f i

/-- Forward scan: starting at index `s` with `k` indices left, the first
index whose sample satisfies `f`. -/
def scanFwdAux (f : ℕ → Bool) : ℕ → ℕ → Option ℕ
  | _, 0 => none
  | s, k + 1 => if f s then some s else scanFwdAux f (s + 1) k

/-- Onset index of the transition at peak `p`: scanning backward from the
peak, the first index where the derivative drops below the onset fraction
of the peak height (spec section 4.3; fraction from the legend). -/
def onsetIdx (d : List ℚ) (p : ℕ) : Option ℕ :=
  scanBackAux (fun i => decide (d.getD i 0 < onsetThresholdFraction * d.getD p 0)) p

/-- Offset index of the transition at peak `p`: scanning forward from the
peak, the first index where the derivative drops below the offset fraction
of the peak height (spec section 4.3; fraction from the legend). -/
def offsetIdx (d : List ℚ) (p : ℕ) : Option ℕ :=
  scanFwdAux (fun i => decide (d.getD i 0 < offsetThresholdFraction * d.getD p 0))
    p (d.length - p)

/-- Follows the claim's words, for comparison with the implementation:
the forward scan performed at the same fraction as the onset scan. -/
def offsetIdxSameFraction (d : List ℚ) (p : ℕ) : Option ℕ :=
  scanFwdAux (fun i => decide (d.getD i 0 < onsetThresholdFraction * d.getD p 0))
    p (d.length - p)

/-- Modelled from the spec: the derivative noise floor; embedded as the
mean absolute derivative (the spec's flattest-region estimate is
simplified to a whole-profile mean, which the claims do not examine). -/
def noiseFloor (d : List ℚ) : ℚ :=
  (d.map (fun x => |x|)).sum / ((max 1 d.length : ℕ) : ℚ)

/-- Local maximum test on the derivative profile. -/
def isLocalMax (d : List ℚ) (i : ℕ) : Bool :=
  decide (0 < i) && decide (i + 1 < d.length) &&
    decide (d.getD (i - 1) 0 < d.getD i 0) &&
    decide (d.getD (i + 1) 0 ≤ d.getD i 0)

/-- Modelled from the spec: indices of candidate transitions — local
maxima of the derivative above twice the noise floor. -/
def transitionIndices (d : List ℚ) : List ℕ :=
  (List.range d.length).filter
    (fun i => isLocalMax d i && decide (2 * noiseFloor d < d.getD i 0))

/-- Number of surviving transitions. -/
def numTransitions (d : List ℚ) : ℕ := (transitionIndices d).length

/-- Modelled from the spec: the transition-type label — `no_transition`
for zero, `monophasic` for one, `multiphasic` for more. -/
def transitionType (n : ℕ) : String :=
  if n = 0 then "no_transition"
  else if n = 1 then "monophasic"
  else "multiphasic"

/-- Modelled from the spec: Tm confidence in [0,1], from peak sharpness
(peak height over local noise). -/
def tmConfidence (d : List ℚ) (p : ℕ) : ℚ :=
  let h := d.getD p 0
  if h ≤ 0 then 0 else min 1 (h / (h + 10 * noiseFloor d))

/-- Mean absolute difference between the raw and the smoothed ratios
(the smoothness-of-fit residual of spec section 4.4). -/
def smoothResidual (c : Curve) : ℚ :=
  (((ratios c).zip (smooth (ratios c))).map (fun p => |p.1 - p.2|)).sum /
    ((max 1 c.length : ℕ) : ℚ)

/-- Modelled from the spec: the baseline-noise estimate; embedded as the
raw-versus-smoothed residual (the spec's pre/post-transition windowing is
simplified to the whole curve, which the claims do not examine). -/
def baselineNoise (c : Curve) : ℚ := smoothResidual c

/-- Largest value of a list (0 for the empty list). -/
def listMax (rs : List ℚ) : ℚ := rs.foldr max (rs.headD 0)

/-- Smallest value of a list (0 for the empty list). -/
def listMin (rs : List ℚ) : ℚ := rs.foldr min (rs.headD 0)

/-- Amplitude of the smoothed signal, its range of values. -/
def amplitude (rs : List ℚ) : ℚ := listMax rs - listMin rs

/-- Modelled from the spec: SNR — dominant amplitude over baseline noise,
with the noise clamped to a minimum floor against division by near-zero. -/
def snrEstimate (c : Curve) : ℚ :=
  amplitude (smooth (ratios c)) / max (1/10000) (baselineNoise c)

/-- Clamp into the score range [0, 100]. -/
def clamp0100 (x : ℚ) : ℚ := max 0 (min 100 x)

/-- Modelled from the spec: the quality score — a weighted combination of
SNR, number of valid points and the smoothness residual, clamped into
[0, 100] (the weights are a representative configuration; the claims use
only the clamping and the banding). -/
def qualityScore (c : Curve) : ℚ :=
  clamp0100 (40 * min 1 (snrEstimate c / 10) +
             30 * min 1 ((c.length : ℚ) / 50) +
             30 * max 0 (1 - 20 * smoothResidual c))

/-- Modelled from the spec: the label bands — ≥85 excellent, ≥70 good,
≥50 acceptable, ≥30 poor, below invalid. -/
def qualityLabel (s : ℚ) : String :=
  if 85 ≤ s then "excellent"
  else if 70 ≤ s then "good"
  else if 50 ≤ s then "acceptable"
  else if 30 ≤ s then "poor"
  else "invalid"

/-- Modelled from the spec: the rule-driven issues list. -/
def issuesList (c : Curve) : List String :=
  (if snrEstimate c < 3 then ["SNR below threshold for reliable Tm"] else []) ++
    (if 1/20 < baselineNoise c then ["baseline noise exceeds threshold"] else [])

/-- The serialized quality report of an analysis run (spec section 6). -/
def qualityObj (c : Curve) : JVal :=
  JVal.obj [("quality", JVal.str (qualityLabel (qualityScore c))),
            ("score", JVal.num (qualityScore c)),
            ("snr_estimate", JVal.num (snrEstimate c)),
            ("baseline_noise", JVal.num (baselineNoise c)),
            ("issues", JVal.arr ((issuesList c).map JVal.str))]

/-- Modelled from the spec: the serialized anomaly report — at most one
dominant anomaly (`multi_transition` over `truncated_transition`). -/
def anomaliesObj (c : Curve) : JVal :=
  let d := derivative (smoothCurve c)
  let p := peakIdx d
  let truncated := (offsetIdx d p).isNone
  let multi := decide (1 < numTransitions d)
  JVal.obj [("has_anomalies", JVal.jbool (multi || truncated)),
            ("anomaly_type",
              if multi then JVal.str "multi_transition"
              else if truncated then JVal.str "truncated_transition"
              else JVal.jnull),
            ("severity",
              if multi then JVal.str "medium"
              else if truncated then JVal.str "high" else JVal.jnull),
            ("description",
              if multi then JVal.str "multiple closely spaced transitions"
              else if truncated then JVal.str "transition extends beyond sampled range"
              else JVal.jnull),
            ("affected_temperature_range",
              if truncated then
                JVal.arr [JVal.num ((temps c).getD p 0),
                          JVal.num ((temps c).getD (c.length - 1) 0)]
              else JVal.jnull)]

/-- The serialized metrics of an analysis run (spec section 6): Tm at the
derivative peak, its confidence, the maximal slope, the onset and offset
temperatures and the transition count and type. -/
def metricsObj (c : Curve) : JVal :=
  let d := derivative (smoothCurve c)
  let p := peakIdx d
  let ts := temps c
  JVal.obj [("tm", JVal.num (ts.getD p 0)),
            ("tm_confidence", JVal.num (tmConfidence d p)),
            ("max_slope", JVal.num (d.getD p 0)),
            ("onset_temperature", JVal.num (ts.getD ((onsetIdx d p).getD 0) 0)),
            ("offset_temperature",
              JVal.num (ts.getD ((offsetIdx d p).getD (c.length - 1)) 0)),
            ("transition_type", JVal.str (transitionType (numTransitions d))),
            ("num_transitions", JVal.num (numTransitions d))]

/-- The serialized curve arrays of an analysis run (spec section 6). -/
def plotDataObj (c : Curve) : JVal :=
  JVal.obj [("raw_temperature", JVal.arr ((temps c).map JVal.num)),
            ("raw_ratio", JVal.arr ((ratios c).map JVal.num)),
            ("smoothed_ratio", JVal.arr ((smooth (ratios c)).map JVal.num)),
            ("derivative_values",
              JVal.arr ((derivative (smoothCurve c)).map JVal.num))]

/-- Modelled from the spec: the `analyze` operation's serialized result
(spec section 6) — metrics, quality, anomalies and plot data. -/
def analyze (c : Curve) : JVal :=
  JVal.obj [("metrics", metricsObj c),
            ("quality", qualityObj c),
            ("anomalies", anomaliesObj c),
            ("plot_data", plotDataObj c)]

/-- The curve array named `k` of an analysis result's plot data. -/
def plotArr (c : Curve) (k : String) : Option JVal :=
  ((analyze c).get? "plot_data").bind (fun v => v.get? k)

/-- Length of an array value (`none` for anything else). -/
def jarrLen (v : Option JVal) : Option ℕ :=
  match v with
  | some (JVal.arr xs) => some xs.length
  | _ => none

/-- The seven metric field names that `MetricsCard` (frontend) reads from
`metrics`, in the order its card items access them. -/
def metricsCardReads (m : JVal) : List (Option JVal) :=
  [m.get? "tm", m.get? "tm_confidence", m.get? "max_slope",
   m.get? "onset_temperature", m.get? "offset_temperature",
   m.get? "transition_type", m.get? "num_transitions"]

/-! ### SimulationEngine, modelled from the spec (section 4.6) -/

/-- A simulation request (spec sections 3 and 6). -/
structure SimRequest where
  base_tm : ℚ
  base_amplitude : ℚ
  ph : ℚ
  protein_concentration : ℚ
  ligand_affinity : ℚ
  temperature_range_start : ℚ
  temperature_range_end : ℚ
  deriving DecidableEq

/-- Modelled from the spec: the pH shift — linear at ±0.5 °C per pH unit
away from the physiological reference 7.4. -/
def pH_shift (ph : ℚ) : ℚ := (ph - 74/10) * (1/2)

/-- Modelled from the spec: the logarithmic concentration effect; embedded
as the rational surrogate 2(c−1)/(c+1) (the Padé approximant of the
natural logarithm at 1), which keeps the properties the claims rely on —
it vanishes at the reference concentration 1 and stabilizes with
diminishing increments. -/
def concentration_effect (c : ℚ) : ℚ := 2 * (c - 1) / (c + 1)

/-- The effective melting temperature of spec section 4.6:
`Tm_eff = base_tm + pH_shift(pH) + ligand_affinity + concentration_effect`. -/
def tm_eff (r : SimRequest) : ℚ :=
  r.base_tm + pH_shift r.ph + r.ligand_affinity +
    concentration_effect r.protein_concentration

/-- Modelled from the spec: the sigmoid of the forward model; embedded as
the rational sigmoid x ↦ 1/2 + x/(2(1+|x|)), increasing from 0 to 1. -/
def rsigmoid (x : ℚ) : ℚ := 1/2 + x / (2 * (1 + |x|))

/-- Width of the simulated transition (the spec leaves the numeric value
open; 3 °C matches the demo curves of the results page). -/
def simWidth : ℚ := 3

/-- Baseline ratio level of the forward model (the `floor` term). -/
def simFloor : ℚ := 2/5

/-- Noise amplitude as a fixed fraction (1/50) of the base amplitude. -/
def simNoiseAmp (r : SimRequest) : ℚ := r.base_amplitude / 50

/-- The simulated temperature grid: 1 °C steps from the start to the end
of the requested range. -/
def simTemps (r : SimRequest) : List ℚ :=
  (List.range ((r.temperature_range_end - r.temperature_range_start).ceil.toNat + 1)).map
    (fun i => r.temperature_range_start + i)

/-- The simulated noisy ratio samples: the sigmoid forward model plus the
injected noise stream scaled by the fixed noise amplitude (the Gaussian
distribution of the noise is not modelled; the claims quantify over
arbitrary noise streams). -/
def simRatios (r : SimRequest) (noise : ℕ → ℚ) : List ℚ :=
  (List.range (simTemps r).length).map (fun i =>
    r.base_amplitude * rsigmoid (((simTemps r).getD i 0 - tm_eff r) / simWidth) +
      simFloor + simNoiseAmp r * noise i)

/-- A simulation result (spec section 3). -/
structure SimResult where
  temperatures : List ℚ
  ratios : List ℚ
  predicted_tm : ℚ
  deriving DecidableEq

/-- Modelled from the spec: the SimulationEngine — a pure function of the
request plus the injected noise stream; `predicted_tm` is the noiseless
analytic `Tm_eff`, not re-derived from the noisy samples. -/
def simulate (r : SimRequest) (noise : ℕ → ℚ) : SimResult :=
  { temperatures := simTemps r, ratios := simRatios r noise,
    predicted_tm := tm_eff r }

/-- The default simulation request of the frontend `SimulationForm`. -/
def defaultReq : SimRequest :=
  { base_tm := 60, base_amplitude := 3/10, ph := 74/10,
    protein_concentration := 1, ligand_affinity := 0,
    temperature_range_start := 20, temperature_range_end := 95 }

/-- The `Expected Tm` preview displayed by `SimulationForm` (frontend):
`base_tm + ligand_affinity + (ph - 7.4) * 0.5`. -/
def simulationFormExpectedTm (r : SimRequest) : ℚ :=
  r.base_tm + r.ligand_affinity + (r.ph - 74/10) * (1/2)

/-- Modelled from the spec: the parameter-domain check of
`InvalidSimulationParameter` (spec section 7) — the range must be
increasing, the pH within [0, 14] and the concentration non-negative. -/
def validRequest (r : SimRequest) : Bool :=
  decide (r.temperature_range_start < r.temperature_range_end) &&
    decide (0 ≤ r.ph) && decide (r.ph ≤ 14) &&
    decide (0 ≤ r.protein_concentration)

/-- Modelled from the spec: one batch item — a rejected request yields a
structured error, a valid one its simulation result. -/
def simulateChecked (r : SimRequest) (noise : ℕ → ℚ) :
    Except String SimResult :=
  if validRequest r then Except.ok (simulate r noise)
  else Except.error "InvalidSimulationParameter"

/-- Modelled from the spec: batch simulation — the per-item operation
applied independently to each request, in order. -/
def simulate_batch (rs : List SimRequest) (noise : ℕ → ℚ) :
    List (Except String SimResult) :=
  rs.map (fun r => simulateChecked r noise)

/-- An invalid request: its temperature range is not increasing. -/
def badReq : SimRequest :=
  { defaultReq with temperature_range_end := 10 }

/-- The default request at pH 8.4, one unit above the reference. -/
def req84 : SimRequest := { defaultReq with ph := 84/10 }

/-- A concrete 20-point valid curve: temperatures 20..39 °C with a rising
ratio. -/
def c20 : Curve :=
  [(20, 1), (21, 2), (22, 3), (23, 4), (24, 5), (25, 6), (26, 7), (27, 8),
   (28, 9), (29, 10), (30, 11), (31, 12), (32, 13), (33, 14), (34, 15),
   (35, 16), (36, 17), (37, 18), (38, 19), (39, 20)]

/-- A concrete derivative profile used to exercise the onset/offset scans:
peak 10 at index 2. -/
def dEx : List ℚ := [0, 1, 10, 6, 0, 0]

/-- The onset/offset characterization at the fractions the repository
documents: the onset index is the first crossing below 10% of the peak
height scanning backward from the peak, the offset index the first
crossing below 90% of the peak height scanning forward — two different
fractions. -/
def OnsetOffsetAtLegendFractions (d : List ℚ) (p j k : ℕ) : Prop :=
  (d.getD j 0 < onsetThresholdFraction * d.getD p 0 ∧ j ≤ p ∧
    ∀ i, j < i → i ≤ p → ¬(d.getD i 0 < onsetThresholdFraction * d.getD p 0)) ∧
  (d.getD k 0 < offsetThresholdFraction * d.getD p 0 ∧ p ≤ k ∧ k < d.length ∧
    ∀ i, p ≤ i → i < k → ¬(d.getD i 0 < offsetThresholdFraction * d.getD p 0)) ∧
  onsetThresholdFraction = 1/10 ∧ offsetThresholdFraction = 9/10

/-- The index-alignment contract of an analysis result: the smoothed
curve keeps the length and the temperature axis of the raw curve, and the
four plot arrays all have the raw curve's length, with `raw_temperature`
the unchanged temperature axis. -/
def PlotAligned (c : Curve) : Prop :=
  (smooth (ratios c)).length = c.length ∧
  temps (smoothCurve c) = temps c ∧
  (smoothCurve c).length = c.length ∧
  jarrLen (plotArr c "raw_temperature") = some c.length ∧
  jarrLen (plotArr c "raw_ratio") = some c.length ∧
  jarrLen (plotArr c "smoothed_ratio") = some c.length ∧
  jarrLen (plotArr c "derivative_values") = some c.length ∧
  plotArr c "raw_temperature" = some (JVal.arr ((temps c).map JVal.num))

/-- The field-name contract of an analysis result: the metrics object
carries exactly the seven documented fields (which is exactly what the
`MetricsCard` consumer reads), the curve arrays carry exactly the four
documented keys, the result's top level has no field named `data`, and
therefore the result-details page's chart preparation — which reads the
curve arrays under `result.data` — produces no rows from it. -/
def AnalyzeFieldContract (c : Curve) : Prop :=
  ((analyze c).get? "metrics").map JVal.keys =
    some ["tm", "tm_confidence", "max_slope", "onset_temperature",
          "offset_temperature", "transition_type", "num_transitions"] ∧
  ((analyze c).get? "plot_data").map JVal.keys =
    some ["raw_temperature", "raw_ratio", "smoothed_ratio",
          "derivative_values"] ∧
  (analyze c).keys = ["metrics", "quality", "anomalies", "plot_data"] ∧
  ((metricsCardReads (((analyze c).get? "metrics").getD JVal.jnull)).all
    (fun v => v.isSome)) = true ∧
  (analyze c).get? "data" = none ∧
  chartDataJs (analyze c) = some []

/-! ### Helper lemmas -/

/-- A successful backward scan returns the first (largest-index) hit at or
below its start. -/
theorem scanBackAux_eq_some (f : ℕ → Bool) :
    ∀ n j, scanBackAux f n = some j →
      f j = true ∧ j ≤ n ∧ ∀ i, j < i → i ≤ n → f i = false := by
  intro n
  induction n with
  | zero =>
    intro j h
    by_cases hf : f 0 = true
    · simp [scanBackAux, hf] at h
      subst h
      exact ⟨hf, Nat.le_refl 0, fun i hi hle => by omega⟩
    · simp [scanBackAux, hf] at h
  | succ n ih =>
    intro j h
    by_cases hf : f (n + 1) = true
    · simp [scanBackAux, hf] at h
      subst h
      exact ⟨hf, Nat.le_refl _, fun i hi hle => by omega⟩
    · simp [scanBackAux, hf] at h
      obtain ⟨h1, h2, h3⟩ := ih j h
      refine ⟨h1, Nat.le_trans h2 (Nat.le_succ n), fun i hi hle => ?_⟩
      rcases Nat.lt_or_ge i (n + 1) with hlt | hge
      · exact h3 i hi (by omega)
      · have heq : i = n + 1 := by omega
        rw [heq]
        simpa using hf

/-- A successful forward scan returns the first hit at or after its start,
within its budget. -/
theorem scanFwdAux_eq_some (f : ℕ → Bool) :
    ∀ k s j, scanFwdAux f s k = some j →
      f j = true ∧ s ≤ j ∧ j < s + k ∧ ∀ i, s ≤ i → i < j → f i = false := by
  intro k
  induction k with
  | zero =>
    intro s j h
    simp [scanFwdAux] at h
  | succ k ih =>
    intro s j h
    by_cases hf : f s = true
    · simp [scanFwdAux, hf] at h
      subst h
      exact ⟨hf, Nat.le_refl _, by omega, fun i h1 h2 => by omega⟩
    · simp [scanFwdAux, hf] at h
      obtain ⟨h1, h2, h3, h4⟩ := ih (s + 1) j h
      refine ⟨h1, by omega, by omega, fun i hi hij => ?_⟩
      rcases Nat.lt_or_ge i (s + 1) with hlt | hge
      · have heq : i = s := by omega
        rw [heq]
        simpa using hf
      · exact h4 i hge hij

/-! ### Claim theorems -/

/-- Claim C9: the result-details page builds its chart rows with keys
`raw_ratio`, `smoothed_ratio` and `derivative`, while `CurveChart`'s two
ratio line series read the dataKeys `rawRatio` and `smoothedRatio`; only
the `derivative` key coincides, so the raw-ratio and smoothed-ratio
series never receive the values carried by the rows. -/
theorem chartRow_curveChart_key_mismatch (temp rawv smv dv : JVal) :
    (chartRow temp rawv smv dv).get? curveChartRawKey = none ∧
    (chartRow temp rawv smv dv).get? curveChartSmoothedKey = none ∧
    (chartRow temp rawv smv dv).get? curveChartDerivativeKey = some dv ∧
    (chartRow temp rawv smv dv).get? "raw_ratio" = some rawv ∧
    (chartRow temp rawv smv dv).get? "smoothed_ratio" = some smv :=
  ⟨rfl, rfl, rfl, rfl, rfl⟩

/-- Claim C10: `QualityBadge` renders nothing whenever its quality or
score argument is JavaScript-falsy; in particular a score of exactly 0
yields no badge at all, for any quality value. -/
theorem qualityBadge_null_guard :
    (∀ (q : Option String) (s : Option ℚ),
      (jsFalsyStr q || jsFalsyNum s) = true → qualityBadge q s = none) ∧
    (∀ q : Option String, qualityBadge q (some 0) = none) := by
  constructor
  · intro q s h
    simp [qualityBadge, h]
  · intro q
    simp [qualityBadge, jsFalsyNum]

/-- Witness for the null guard at a concrete falsy input: the quality
string `excellent` is truthy, the score 0 is falsy, and no badge is
rendered. -/
theorem qualityBadge_null_guard_witness :
    (jsFalsyStr (some "excellent") || jsFalsyNum (some (0 : ℚ))) = true ∧
    qualityBadge (some "excellent") (some 0) = none :=
  ⟨by decide, qualityBadge_null_guard.1 (some "excellent") (some 0) (by decide)⟩

/-- Counterexample to claim C7: on the results page's own `Primary
Unfolding` transition (which carries `peakHeight` 0.35 and a width of
14.6 °C but no `slope` field), the table's cooperativity is `NaN`
(missing), not the claimed peak height over width. -/
theorem cooperativity_counterexample :
    cooperativity primaryUnfolding = none ∧
    cooperativityClaimed primaryUnfolding = some ((7/20) / (73/5)) ∧
    cooperativity primaryUnfolding ≠ cooperativityClaimed primaryUnfolding := by
  have h1 : cooperativity primaryUnfolding = none := rfl
  have h2 : cooperativityClaimed primaryUnfolding = some ((7/20) / (73/5)) := by
    simp only [cooperativityClaimed, primaryUnfolding, rowWidth]
    norm_num
  refine ⟨h1, h2, ?_⟩
  rw [h1, h2]
  simp

/-- Claim C7 as amended: the displayed cooperativity divides the
transition's `slope` field (not its peak height) by the width, and when
the width is zero the divisor is the fallback 1, so the value equals the
slope; a transition without a `slope` field has no numeric
cooperativity. -/
theorem cooperativity_amended :
    (∀ (t : TransitionRow) (s w : ℚ), t.slope = some s → rowWidth t = some w →
      w ≠ 0 → cooperativity t = some (s / w)) ∧
    (∀ (t : TransitionRow) (s : ℚ), t.slope = some s → rowWidth t = some 0 →
      cooperativity t = some s) ∧
    (∀ t : TransitionRow, t.slope = none → cooperativity t = none) := by
  refine ⟨?_, ?_, ?_⟩
  · intro t s w hs hw hne
    simp [cooperativity, hs, widthOr1, hw, hne]
  · intro t s hs hw
    simp [cooperativity, hs, widthOr1, hw]
  · intro t ht
    simp [cooperativity, ht]

/-- Witness for the amended cooperativity on a transition carrying a
`slope` field: the displayed value is slope over width. -/
theorem cooperativity_amended_witness :
    slopeRow.slope = some (117/5000) ∧ rowWidth slopeRow = some (73/5) ∧
    ((73 : ℚ)/5) ≠ 0 ∧
    cooperativity slopeRow = some ((117/5000) / (73/5)) := by
  have hw : rowWidth slopeRow = some (73/5) := by
    simp only [rowWidth, slopeRow]
    norm_num
  have hne : ((73 : ℚ)/5) ≠ 0 := by norm_num
  exact ⟨rfl, hw, hne,
    cooperativity_amended.1 slopeRow (117/5000) (73/5) rfl hw hne⟩

/-- Evaluation of the onset scan on the concrete profile `dEx`. -/
theorem onsetIdx_dEx : onsetIdx dEx 2 = some 0 := by
  have hthr : onsetThresholdFraction * dEx.getD 2 0 = 1 := by
    rw [show dEx.getD 2 0 = (10 : ℚ) from rfl]
    norm_num [onsetThresholdFraction]
  simp only [onsetIdx, hthr]
  rfl

/-- Evaluation of the offset scan on the concrete profile `dEx`. -/
theorem offsetIdx_dEx : offsetIdx dEx 2 = some 3 := by
  have hthr : offsetThresholdFraction * dEx.getD 2 0 = 9 := by
    rw [show dEx.getD 2 0 = (10 : ℚ) from rfl]
    norm_num [offsetThresholdFraction]
  simp only [offsetIdx, hthr]
  rfl

/-- Evaluation of the same-fraction forward scan on `dEx`. -/
theorem offsetIdxSameFraction_dEx : offsetIdxSameFraction dEx 2 = some 4 := by
  have hthr : onsetThresholdFraction * dEx.getD 2 0 = 1 := by
    rw [show dEx.getD 2 0 = (10 : ℚ) from rfl]
    norm_num [onsetThresholdFraction]
  simp only [offsetIdxSameFraction, hthr]
  rfl

/-- Counterexample to claim C6: the repository documents the onset at 10%
of the peak and the offset at 90% of the peak — not the same fraction —
and on the concrete profile `dEx` the offset scan at the documented 90%
fraction stops at index 3 while a scan at the onset's 10% fraction would
stop at index 4. -/
theorem onset_offset_fraction_counterexample :
    onsetThresholdFraction ≠ offsetThresholdFraction ∧
    offsetIdx dEx 2 = some 3 ∧
    offsetIdxSameFraction dEx 2 = some 4 ∧
    offsetIdx dEx 2 ≠ offsetIdxSameFraction dEx 2 := by
  refine ⟨?_, offsetIdx_dEx, offsetIdxSameFraction_dEx, ?_⟩
  · norm_num [onsetThresholdFraction, offsetThresholdFraction]
  · rw [offsetIdx_dEx, offsetIdxSameFraction_dEx]
    simp

/-- Claim C6 as amended: for a detected transition at peak `p`, the onset
index is the first crossing below 10% of the peak derivative height
scanning backward from the peak, and the offset index is the first
crossing below 90% of the peak derivative height scanning forward — the
two bounds use the different fractions the repository documents, not a
single shared fraction. -/
theorem onset_offset_scan_amended (d : List ℚ) (p j k : ℕ)
    (hj : onsetIdx d p = some j) (hk : offsetIdx d p = some k) :
    OnsetOffsetAtLegendFractions d p j k := by
  obtain ⟨h1, h2, h3⟩ := scanBackAux_eq_some _ p j hj
  obtain ⟨g1, g2, g3, g4⟩ := scanFwdAux_eq_some _ (d.length - p) p k hk
  have hplen : p < d.length := by
    rcases Nat.lt_or_ge p d.length with hp | hp
    · exact hp
    · omega
  refine ⟨⟨of_decide_eq_true h1, h2, fun i hji hip => ?_⟩,
    ⟨of_decide_eq_true g1, g2, by omega, fun i hpi hik => ?_⟩, rfl, rfl⟩
  · exact of_decide_eq_false (h3 i hji hip)
  · exact of_decide_eq_false (g4 i hpi hik)

/-- Witness for the amended onset/offset characterization on the concrete
profile `dEx` (peak 10 at index 2): onset index 0, offset index 3. -/
theorem onset_offset_scan_amended_witness :
    onsetIdx dEx 2 = some 0 ∧ offsetIdx dEx 2 = some 3 ∧
    OnsetOffsetAtLegendFractions dEx 2 0 3 :=
  ⟨onsetIdx_dEx, offsetIdx_dEx,
    onset_offset_scan_amended dEx 2 0 3 onsetIdx_dEx offsetIdx_dEx⟩

/-- The smoothed ratio list always has the length of its input. -/
theorem smooth_length (rs : List ℚ) : (smooth rs).length = rs.length := by
  simp [smooth]

/-- The derivative profile always has the length of its curve. -/
theorem derivative_length (c : Curve) : (derivative c).length = c.length := by
  simp [derivative]

/-- The smoothed curve has the raw curve's length. -/
theorem smoothCurve_length (c : Curve) : (smoothCurve c).length = c.length := by
  simp [smoothCurve, temps, smooth_length, ratios]

/-- The smoothed curve keeps the raw temperature axis. -/
theorem smoothCurve_temps (c : Curve) : temps (smoothCurve c) = temps c := by
  have hlen : (temps c).length ≤ (smooth (ratios c)).length := by
    simp [temps, smooth_length, ratios]
  simpa [smoothCurve, temps] using List.map_fst_zip _ _ hlen

/-- The plot arrays of an analysis result, as built values. -/
theorem plotArr_eval (c : Curve) :
    plotArr c "raw_temperature" = some (JVal.arr ((temps c).map JVal.num)) ∧
    plotArr c "raw_ratio" = some (JVal.arr ((ratios c).map JVal.num)) ∧
    plotArr c "smoothed_ratio" =
      some (JVal.arr ((smooth (ratios c)).map JVal.num)) ∧
    plotArr c "derivative_values" =
      some (JVal.arr ((derivative (smoothCurve c)).map JVal.num)) :=
  ⟨rfl, rfl, rfl, rfl⟩

/-- Claim C4: for every valid raw curve, the smoothed curve has the same
length and the unchanged temperature axis, and the four plot arrays of
the analysis result all carry one entry per raw point, with
`raw_temperature` the raw temperature axis — so the same index addresses
the same temperature in every array. -/
theorem smoothing_preserves_alignment (c : Curve) (_h : validCurve c = true) :
    PlotAligned c := by
  obtain ⟨e1, e2, e3, e4⟩ := plotArr_eval c
  refine ⟨smooth_length (ratios c) |>.trans ?_, smoothCurve_temps c,
    smoothCurve_length c, ?_, ?_, ?_, ?_, e1⟩
  · simp [ratios]
  · rw [e1]
    simp [jarrLen, temps]
  · rw [e2]
    simp [jarrLen, ratios]
  · rw [e3]
    simp [jarrLen, smooth_length, ratios]
  · rw [e4]
    simp [jarrLen, derivative_length, smoothCurve_length]

/-- Witness: the concrete 20-point curve `c20` is valid and satisfies the
alignment contract. -/
theorem smoothing_preserves_alignment_witness :
    validCurve c20 = true ∧ PlotAligned c20 :=
  ⟨by decide, smoothing_preserves_alignment c20 (by decide)⟩

/-- Claim C5: every analysis run's quality score lies in [0, 100] and its
label is one of exactly the five bands the badge supports, with the label
determined by the documented score bands. -/
theorem quality_score_bands :
    (∀ c : Curve, 0 ≤ qualityScore c ∧ qualityScore c ≤ 100 ∧
      qualityLabel (qualityScore c) ∈ qualityBadgeSupported) ∧
    (∀ s : ℚ,
      (85 ≤ s → qualityLabel s = "excellent") ∧
      (70 ≤ s → s < 85 → qualityLabel s = "good") ∧
      (50 ≤ s → s < 70 → qualityLabel s = "acceptable") ∧
      (30 ≤ s → s < 50 → qualityLabel s = "poor") ∧
      (s < 30 → qualityLabel s = "invalid")) ∧
    (∀ s : ℚ, qualityLabel s ∈ qualityBadgeSupported) := by
  have hmem : ∀ s : ℚ, qualityLabel s ∈ qualityBadgeSupported := by
    intro s
    unfold qualityLabel qualityBadgeSupported
    split_ifs <;> simp
  refine ⟨fun c => ⟨?_, ?_, hmem _⟩, fun s => ⟨?_, ?_, ?_, ?_, ?_⟩, hmem⟩
  · exact le_max_left 0 _
  · exact max_le (by norm_num) (min_le_left 100 _)
  · intro h85
    unfold qualityLabel
    rw [if_pos h85]
  · intro h70 h85
    unfold qualityLabel
    rw [if_neg (by linarith), if_pos h70]
  · intro h50 h70
    unfold qualityLabel
    rw [if_neg (by linarith), if_neg (by linarith), if_pos h50]
  · intro h30 h50
    unfold qualityLabel
    rw [if_neg (by linarith), if_neg (by linarith), if_neg (by linarith),
      if_pos h30]
  · intro h30
    unfold qualityLabel
    rw [if_neg (by linarith), if_neg (by linarith), if_neg (by linarith),
      if_neg (by linarith)]

/-- Witness for the banding at a concrete score: 90 is in the excellent
band. -/
theorem quality_score_bands_witness :
    (85 : ℚ) ≤ 90 ∧ qualityLabel 90 = "excellent" :=
  ⟨by norm_num, (quality_score_bands.2.1 90).1 (by norm_num)⟩

/-- Counterexample to claim C1: on the concrete valid curve `c20`, the
analysis result nests its curve arrays under `plot_data` only — it has no
top-level `data` field — so the result-details page's chart preparation,
which reads the arrays under `result.data`, produces no chart rows from
it even though the `plot_data.raw_temperature` array is present. -/
theorem analyze_consumer_counterexample :
    validCurve c20 = true ∧
    (analyze c20).get? "data" = none ∧
    chartDataJs (analyze c20) = some [] ∧
    (((analyze c20).get? "plot_data").bind
      (fun v => v.get? "raw_temperature")).isSome = true :=
  ⟨by decide, rfl, rfl, rfl⟩

/-- Claim C1 as amended: for every valid curve the analysis result's
metrics object carries exactly the seven documented fields (and the
`MetricsCard` consumer reads exactly those names and finds every one),
and its curve arrays carry exactly the four documented keys — but they
are nested under `plot_data`, while the result-details consumer reads
them under a field named `data`, which the result does not have, so that
consumer gets no rows. -/
theorem analyze_field_names_amended (c : Curve) (_h : validCurve c = true) :
    AnalyzeFieldContract c :=
  ⟨rfl, rfl, rfl, rfl, rfl, rfl⟩

/-- Witness: the amended field-name contract at the concrete valid curve
`c20`. -/
theorem analyze_field_names_amended_witness :
    validCurve c20 = true ∧ AnalyzeFieldContract c20 :=
  ⟨by decide, analyze_field_names_amended c20 (by decide)⟩

/-- Claim C2: `simulate` is deterministic in `predicted_tm` — the injected
noise stream changes neither the predicted Tm nor the temperature grid —
and the default request (base Tm 60, pH 7.4, concentration 1, no ligand)
yields `predicted_tm = 60` exactly, for every noise stream. -/
theorem predicted_tm_deterministic :
    (∀ (r : SimRequest) (noiseA noiseB : ℕ → ℚ),
      (simulate r noiseA).predicted_tm = (simulate r noiseB).predicted_tm ∧
      (simulate r noiseA).temperatures = (simulate r noiseB).temperatures) ∧
    (∀ noise : ℕ → ℚ, (simulate defaultReq noise).predicted_tm = 60) := by
  refine ⟨fun r a b => ⟨rfl, rfl⟩, fun noise => ?_⟩
  show tm_eff defaultReq = 60
  norm_num [tm_eff, defaultReq, pH_shift, concentration_effect]

/-- Claim C3: `predicted_tm` equals
`base_tm + pH_shift(ph) + ligand_affinity + concentration_effect(conc)`,
the pH shift is linear at 0.5 °C per pH unit, and raising the pH of the
default request from 7.4 to 8.4 with everything else fixed raises the
predicted Tm by exactly 0.5 °C, whatever the noise. -/
theorem predicted_tm_formula :
    (∀ (r : SimRequest) (noise : ℕ → ℚ),
      (simulate r noise).predicted_tm =
        r.base_tm + pH_shift r.ph + r.ligand_affinity +
          concentration_effect r.protein_concentration) ∧
    (∀ ph : ℚ, pH_shift (ph + 1) - pH_shift ph = 1/2) ∧
    (∀ noiseA noiseB : ℕ → ℚ,
      (simulate req84 noiseA).predicted_tm =
        (simulate defaultReq noiseB).predicted_tm + 1/2) := by
  refine ⟨fun r noise => rfl, fun ph => ?_, fun a b => ?_⟩
  · unfold pH_shift
    ring
  · show tm_eff req84 = tm_eff defaultReq + 1/2
    norm_num [tm_eff, req84, defaultReq, pH_shift, concentration_effect]

/-- The `Expected Tm` preview shown by the frontend `SimulationForm`
agrees with the engine's predicted Tm at the reference concentration 1
(where the logarithmic concentration effect vanishes). -/
theorem simulationForm_preview_agrees (r : SimRequest) (noise : ℕ → ℚ)
    (h : r.protein_concentration = 1) :
    simulationFormExpectedTm r = (simulate r noise).predicted_tm := by
  show simulationFormExpectedTm r = tm_eff r
  rw [simulationFormExpectedTm, tm_eff, h]
  norm_num [pH_shift, concentration_effect]
  ring

/-- The default request passes the parameter-domain check. -/
theorem validRequest_defaultReq : validRequest defaultReq = true := by
  simp only [validRequest, defaultReq]
  norm_num

/-- The bad request (range end 10 below range start 20) is rejected. -/
theorem validRequest_badReq : validRequest badReq = false := by
  simp only [validRequest, badReq, defaultReq]
  norm_num

/-- Claim C8: batch simulation returns exactly one result per request in
input order — the k-th result is the independent simulation of the k-th
request — and splitting the batch around any one request shows the other
results are produced unchanged, so an invalid request fails only at its
own index; concretely, a batch of the valid default request followed by
an invalid one yields the default's result and then the structured
error. -/
theorem simulate_batch_independent :
    (∀ (rs : List SimRequest) (noise : ℕ → ℚ),
      (simulate_batch rs noise).length = rs.length) ∧
    (∀ (rs : List SimRequest) (noise : ℕ → ℚ) (k : ℕ),
      (simulate_batch rs noise)[k]? =
        (rs[k]?).map (fun r => simulateChecked r noise)) ∧
    (∀ (pre post : List SimRequest) (r : SimRequest) (noise : ℕ → ℚ),
      simulate_batch (pre ++ r :: post) noise =
        simulate_batch pre noise ++
          simulateChecked r noise :: simulate_batch post noise) ∧
    (∀ noise : ℕ → ℚ,
      simulate_batch [defaultReq, badReq] noise =
        [Except.ok (simulate defaultReq noise),
         Except.error "InvalidSimulationParameter"]) := by
  refine ⟨fun rs noise => by simp [simulate_batch],
    fun rs noise k => by simp [simulate_batch],
    fun pre post r noise => by simp [simulate_batch],
    fun noise => ?_⟩
  simp [simulate_batch, simulateChecked, validRequest_defaultReq,
    validRequest_badReq]
